import Mathlib

/-!
Verification of the ballot_buddy_frontend client against its specification.

Each definition is a shallow embedding of a function of the repository:
* `responseInterceptor` embeds the axios response interceptor of
  `src/services/api.ts` (the 401 handling).
* `handleVoteChange`, `handleNext`, `clickStepButton`, `handleSubmit` and the
  submit-button condition embed the ballot casting wizard (`VotingPage`).
* `protectedRoute` embeds the `ProtectedRoute` guard component.
* `onUnifiedLogin` embeds the unified login dispatch of `HomePage`.
* `welcomeEffect` embeds the welcome-banner effect shared by the dashboards.
* `display429` and `handleResendOTP` embed the 429 handlers of the OTP flows.
* `serveRequest` and `cacheControlFor` embed the express static file server.

JavaScript objects used as string-keyed maps are embedded as association
lists (`List (String × String)`); `Object.keys(m).length` is the list length,
which matches the source because JavaScript object keys are unique.
-/

namespace BallotBuddy

/-- Character-list prefix test, used to embed JavaScript `String.includes`. -/
def listStartsWith : List Char → List Char → Bool
  | [], _ => true
  | _ :: _, [] => false
  | p :: ps, c :: cs => p == c && listStartsWith ps cs

/-- Substring containment on character lists. -/
def listContainsSub (pat : List Char) : List Char → Bool
  | [] => pat.isEmpty
  | c :: cs => listStartsWith pat (c :: cs) || listContainsSub pat cs

/-- Embeds JavaScript `s.includes(pat)`. -/
def strContains (s pat : String) : Bool :=
  listContainsSub pat.toList s.toList

/-- Embeds JavaScript `s.startsWith(pat)`. -/
def strStartsWith (s pat : String) : Bool :=
  listStartsWith pat.toList s.toList

/-- Embeds JavaScript `s.endsWith(pat)`. -/
def strEndsWith (s pat : String) : Bool :=
  listStartsWith pat.toList.reverse s.toList.reverse

/-- Embeds JavaScript `s.trim()`: whitespace stripped from both ends. -/
def jsTrim (s : String) : String :=
  String.mk
    (((s.toList.dropWhile Char.isWhitespace).reverse.dropWhile
      Char.isWhitespace).reverse)

/-- Embeds JavaScript `s.toUpperCase()` (ASCII letters, as used for
registration numbers). -/
def jsToUpperCase (s : String) : String :=
  String.mk (s.toList.map Char.toUpper)

/-- Embeds JavaScript `x || d` for an optional string field: `undefined` and
the empty string are falsy and fall through to the default. -/
def jsOr (v : Option String) (d : String) : String :=
  match v with
  | none => d
  | some s => if s = "" then d else s

/-- Embeds JavaScript `x || d` for an optional numeric field: `undefined`
and `0` are falsy. -/
def jsOrNat (v : Option Nat) (d : Nat) : Nat :=
  match v with
  | none => d
  | some n => if n = 0 then d else n

/-! ### Ballot casting wizard (`VotingPage`) -/

/-- A ballot position as delivered to the wizard (`interface Position`). -/
structure Position where
  id : String
  name : String
  seats : Nat
  votingOpens : String
  votingCloses : String
deriving DecidableEq, Repr

/-- The in-progress selection map `votes : { [positionId: string]: string }`,
embedded as an association list from position id to candidate id. -/
abbrev Votes := List (String × String)

/-- Embeds `votes[positionId]`: the first binding for the key, if any. -/
def lookupVote : Votes → String → Option String
  | [], _ => none
  | (k, v) :: t, p => if k = p then some v else lookupVote t p

/-- Embeds `{ ...votes, [positionId]: candidateId }`: updates an existing key
in place, otherwise appends the new binding. -/
def setVote : Votes → String → String → Votes
  | [], p, c => [(p, c)]
  | (k, v) :: t, p, c => if k = p then (k, c) :: t else (k, v) :: setVote t p c

/-- Embeds `delete newVotes[positionId]` (keys are unique in a JavaScript
object, so removing the first binding removes the key). -/
def eraseVote : Votes → String → Votes
  | [], _ => []
  | (k, v) :: t, p => if k = p then t else (k, v) :: eraseVote t p

/-- Embeds `handleVoteChange`: selecting the already-chosen candidate clears
the choice for that position, otherwise it records the candidate. -/
def handleVoteChange (votes : Votes) (positionId candidateId : String) : Votes :=
  if lookupVote votes positionId = some candidateId then
    eraseVote votes positionId
  else
    setVote votes positionId candidateId

/-- The wizard's page-local state: `currentStep` and `votes`. -/
structure WizardState where
  currentStep : Nat
  votes : Votes
deriving DecidableEq, Repr

/-- The id of `positions[currentStep]`, when the index is in range. -/
def currentPositionId (ballot : List Position) (s : WizardState) : Option String :=
  (ballot.get? s.currentStep).map Position.id

/-- Embeds the Next Position button's `disabled={!votes[currentPosition.id]}`
(an out-of-range current position reads as undefined, hence disabled). -/
def nextButtonDisabled (ballot : List Position) (s : WizardState) : Bool :=
  match currentPositionId ballot s with
  | some pid => (lookupVote s.votes pid).isNone
  | none => true

/-- Embeds `handleNext`: advance one step when not already on the last one. -/
def handleNext (ballot : List Position) (s : WizardState) : WizardState :=
  if s.currentStep < ballot.length - 1 then
    { s with currentStep := s.currentStep + 1 }
  else s

/-- Clicking the Next Position button: a disabled button does nothing,
otherwise `handleNext` runs. -/
def clickNextButton (ballot : List Position) (s : WizardState) : WizardState :=
  if nextButtonDisabled ballot s then s else handleNext ballot s

/-- Embeds a progress step button's `onClick={() => setCurrentStep(index)}`:
the step index is set unconditionally. -/
def clickStepButton (s : WizardState) (index : Nat) : WizardState :=
  { s with currentStep := index }

/-- Embeds `votedCount = Object.keys(votes).length`. -/
def votedCount (votes : Votes) : Nat := votes.length

/-- Embeds the Submit Vote button's
`disabled={submitting || votedCount !== totalPositions}`. -/
def submitButtonEnabled (submitting : Bool) (ballot : List Position)
    (votes : Votes) : Bool :=
  !(submitting || votedCount votes != ballot.length)

/-- The number of ballot positions that have a recorded selection (the
quantity the specification's submit-enabled condition speaks about). -/
def selectedPositionCount (ballot : List Position) (votes : Votes) : Nat :=
  (ballot.filter (fun p => (lookupVote votes p.id).isSome)).length

/-- Outcome of `votesAPI.castVote`, as the wizard distinguishes it. -/
inductive CastResult where
  | ok : CastResult
  | err400 (msg : String) (closedPositions : List String)
      (hint : Option String) : CastResult
  | errOther (msg : Option String) : CastResult
deriving DecidableEq, Repr

/-- What `handleSubmit` did: which branch ran, whether the locally stored
ballot token was removed, and where it navigated. -/
structure SubmitResult where
  blockedMissing : Option (List String)
  cancelled : Bool
  toastMessage : Option String
  tokenRemoved : Bool
  navigatedTo : Option String
deriving DecidableEq, Repr

/-- Embeds `handleSubmit`: blocks while any position lacks a selection,
requires the `confirm(...)` dialog, and on success removes `ballotToken`
and navigates to the confirmation state; 400 errors are pattern-matched
on message substrings. -/
def handleSubmit (ballot : List Position) (votes : Votes)
    (confirmed : Bool) (cast : CastResult) : SubmitResult :=
  let missingPositions := ballot.filter (fun p => (lookupVote votes p.id).isNone)
  if missingPositions.length > 0 then
    { blockedMissing := some (missingPositions.map Position.name)
      cancelled := false, toastMessage := none
      tokenRemoved := false, navigatedTo := none }
  else if !confirmed then
    { blockedMissing := none, cancelled := true, toastMessage := none
      tokenRemoved := false, navigatedTo := none }
  else
    match cast with
    | .ok =>
      { blockedMissing := none, cancelled := false
        toastMessage := some "Vote cast successfully! Thank you for voting."
        tokenRemoved := true, navigatedTo := some "/verify" }
    | .err400 msg closedPositions hint =>
      if strContains msg "already used" then
        { blockedMissing := none, cancelled := false
          toastMessage := some "This ballot has already been used. You can only vote once."
          tokenRemoved := true, navigatedTo := some "/verify" }
      else if strContains msg "not open for voting" then
        if closedPositions.length > 0 then
          { blockedMissing := none, cancelled := false
            toastMessage := some ("Voting window closed for: " ++
              String.intercalate ", " closedPositions ++
              ". Contact administrator to extend voting time.")
            tokenRemoved := false, navigatedTo := none }
        else
          { blockedMissing := none, cancelled := false
            toastMessage := some (msg ++ ". " ++ hint.getD "")
            tokenRemoved := false, navigatedTo := none }
      else
        { blockedMissing := none, cancelled := false
          toastMessage := some (if msg = "" then "Failed to cast vote" else msg)
          tokenRemoved := false, navigatedTo := none }
    | .errOther msg =>
      { blockedMissing := none, cancelled := false
        toastMessage := some (jsOr msg "Failed to cast vote")
        tokenRemoved := false, navigatedTo := none }

/-! ### API client response interceptor (`src/services/api.ts`) -/

/-- Observable effect of the 401 handling in the axios response interceptor:
which localStorage keys were removed, where the delayed redirect goes, and
the replacement rejection message, if any. -/
structure InterceptorEffect where
  tokenRemoved : Bool
  userRemoved : Bool
  redirectTo : Option String
  rejectionMessage : Option String
deriving DecidableEq, Repr

/-- Embeds `api.interceptors.response` (error branch): on a 401 the `token`
and `user` keys are removed, then the error message is pattern-matched to
decide between a delayed redirect to `/login` and letting the component
handle an account-deactivation error. -/
def responseInterceptor (status : Nat) (errorMessage : String) : InterceptorEffect :=
  if status = 401 then
    if strContains errorMessage "Invalid or inactive user" ||
        strContains errorMessage "Invalid token" ||
        strContains errorMessage "Token expired" then
      { tokenRemoved := true, userRemoved := true
        redirectTo := some "/login"
        rejectionMessage := some "Your session has expired. Please log in again." }
    else if strContains errorMessage "inactive" ||
        strContains errorMessage "deactivated" then
      { tokenRemoved := true, userRemoved := true
        redirectTo := none, rejectionMessage := none }
    else
      { tokenRemoved := true, userRemoved := true
        redirectTo := some "/login", rejectionMessage := none }
  else
    { tokenRemoved := false, userRemoved := false
      redirectTo := none, rejectionMessage := none }

/-! ### Route guard (`ProtectedRoute`) -/

/-- The stored `user` record's fields the guard inspects (roles and statuses
are raw strings in localStorage, compared against string literals). -/
structure StoredUser where
  role : String
  status : String
deriving DecidableEq, Repr

/-- Result of `JSON.parse` on the stored `user` string: a parsed record or a
parse failure. -/
inductive ParsedUser where
  | parsed (u : StoredUser) : ParsedUser
  | malformed : ParsedUser
deriving DecidableEq, Repr

/-- What the guard renders or navigates to. -/
inductive RouteDecision where
  | navigate (dest : String) : RouteDecision
  | deactivatedNotice : RouteDecision
  | render : RouteDecision
deriving DecidableEq, Repr

/-- The guard's decision together with whether it cleared the stored
`token` and `user` keys. -/
structure RouteResult where
  decision : RouteDecision
  clearedStorage : Bool
deriving DecidableEq, Repr

/-- Embeds `ProtectedRoute`: missing token or user string redirects to
login; unparseable user JSON clears storage and redirects to login; an
INACTIVE officer sees the deactivation notice while any other INACTIVE
user is cleared and sent to login; a role mismatch redirects to the
user's own dashboard. -/
def protectedRoute (requiredRole : Option String) (token : Option String)
    (stored : Option ParsedUser) : RouteResult :=
  match token, stored with
  | none, _ => { decision := .navigate "/login", clearedStorage := false }
  | some _, none => { decision := .navigate "/login", clearedStorage := false }
  | some _, some .malformed =>
      { decision := .navigate "/login", clearedStorage := true }
  | some _, some (.parsed u) =>
      if u.status = "INACTIVE" then
        if u.role = "OFFICER" then
          { decision := .deactivatedNotice, clearedStorage := false }
        else
          { decision := .navigate "/login", clearedStorage := true }
      else
        match requiredRole with
        | some r =>
            if u.role ≠ r then
              if u.role = "ADMIN" then
                { decision := .navigate "/admin/dashboard", clearedStorage := false }
              else if u.role = "OFFICER" then
                { decision := .navigate "/officer/dashboard", clearedStorage := false }
              else if u.role = "CANDIDATE" then
                { decision := .navigate "/candidate/dashboard", clearedStorage := false }
              else
                { decision := .navigate "/login", clearedStorage := false }
            else
              { decision := .render, clearedStorage := false }
        | none => { decision := .render, clearedStorage := false }

/-- The dashboard path `ProtectedRoute` redirects a mismatched role to. -/
def roleDashboard (role : String) : String :=
  if role = "ADMIN" then "/admin/dashboard"
  else if role = "OFFICER" then "/officer/dashboard"
  else if role = "CANDIDATE" then "/candidate/dashboard"
  else "/login"

/-! ### 429 handling shared by the OTP request sites -/

/-- Embeds the identical 429 handlers of `HomePage.onUnifiedLogin` and
`VoterOTPPage.handleResendOTP`:
`` `${error || 'Too many requests'}. ${hint || `Please wait ${retryAfter || 60} seconds before trying again`}` ``. -/
def display429 (errField hintField : Option String) (retryAfter : Option Nat) : String :=
  let errorMessage := jsOr errField "Too many requests"
  let errorHint := jsOr hintField
    ("Please wait " ++ toString (jsOrNat retryAfter 60) ++ " seconds before trying again")
  errorMessage ++ ". " ++ errorHint

/-! ### Unified login dispatch (`HomePage.onUnifiedLogin`) -/

/-- Outcome of `verificationAPI.requestOTP` as the login page observes it. -/
inductive OtpRequestResult where
  | ok : OtpRequestResult
  | rateLimited (errField hintField : Option String)
      (retryAfter : Option Nat) : OtpRequestResult
  | failed (errField : Option String) : OtpRequestResult
deriving DecidableEq, Repr

/-- Observable outcome of `onUnifiedLogin`. -/
inductive UnifiedLoginOutcome where
  | userLoginBranch : UnifiedLoginOutcome
  | otpSent (regNoSent : String) (navTo : String)
      (navStateRegNo : String) : UnifiedLoginOutcome
  | formError (message : String) : UnifiedLoginOutcome
deriving DecidableEq, Repr

/-- Embeds the truthiness test
`data.email && data.password && data.email.trim() !== '' && data.password.trim() !== ''`. -/
def hasEmailPassword (email password : String) : Bool :=
  email ≠ "" && password ≠ "" && jsTrim email ≠ "" && jsTrim password ≠ ""

/-- Embeds the truthiness test `data.regNo && data.regNo.trim() !== ''`. -/
def hasRegNo (regNo : String) : Bool :=
  regNo ≠ "" && jsTrim regNo ≠ ""

/-- Embeds `data.regNo!.trim().toUpperCase()`. -/
def normalizeRegNo (regNo : String) : String :=
  jsToUpperCase (jsTrim regNo)

/-- Embeds `onUnifiedLogin`'s dispatch and its voter branch: with email and
password both present the user-login branch runs; otherwise a present
registration number triggers an OTP request and, on success, navigation to
`/login/otp` carrying the trimmed, uppercased registration number. -/
def onUnifiedLogin (email password regNo : String)
    (otp : OtpRequestResult) : UnifiedLoginOutcome :=
  if hasEmailPassword email password then
    .userLoginBranch
  else if hasRegNo regNo then
    match otp with
    | .ok => .otpSent (normalizeRegNo regNo) "/login/otp" (normalizeRegNo regNo)
    | .rateLimited e h r => .formError (display429 e h r)
    | .failed e => .formError (jsOr e "Failed to send OTP")
  else
    .formError "Please enter either email and password, or registration number"

/-! ### Voter OTP resend (`VoterOTPPage.handleResendOTP`) -/

/-- Embeds `handleResendOTP`: the toast message shown and whether a new OTP
was successfully requested. -/
def handleResendOTP (regNo : String) (otp : OtpRequestResult) : String × Bool :=
  if regNo = "" then ("Registration number is required", false)
  else
    match otp with
    | .ok => ("New OTP sent to your phone via SMS!", true)
    | .rateLimited e h r => (display429 e h r, false)
    | .failed e => (jsOr e "Failed to resend OTP", false)

/-! ### Welcome banner effect (dashboards) -/

/-- The localStorage record `{ message, timestamp }` written at login. -/
structure WelcomeRecord where
  message : String
  timestamp : Int
deriving DecidableEq, Repr

/-- Effect of the dashboards' welcome-message `useEffect`: what is shown,
whether the record was removed immediately, and when the auto-dismiss
timer fires. -/
structure WelcomeReadResult where
  displayed : Option String
  removedNow : Bool
  dismissAt : Option Int
deriving DecidableEq, Repr

/-- Embeds the welcome-message effect shared by the dashboards: `none` means
no stored record, `some none` an unparseable one; a record is shown only
when `Date.now() - timestamp < 30000`, with a 10000 ms auto-dismiss timer,
and is otherwise deleted without display. -/
def welcomeEffect (stored : Option (Option WelcomeRecord)) (now : Int) :
    WelcomeReadResult :=
  match stored with
  | none => { displayed := none, removedNow := false, dismissAt := none }
  | some none => { displayed := none, removedNow := true, dismissAt := none }
  | some (some w) =>
      if now - w.timestamp < 30000 then
        { displayed := some w.message, removedNow := false
          dismissAt := some (now + 10000) }
      else
        { displayed := none, removedNow := true, dismissAt := none }

/-- Embeds the auto-dismiss timer callback: the banner is hidden and the
record removed from storage. -/
def welcomeDismiss : Option String × Bool := (none, true)

/-! ### Static file server (`server.js`) -/

/-- Embeds the `setHeaders` callback of `express.static` together with the
configured `maxAge: '1y'` default: the JS/CSS check runs last, so its
header wins; files that are neither HTML nor JS/CSS keep the default
one-year header. -/
def cacheControlFor (p : String) : String :=
  if strEndsWith p ".js" || strEndsWith p ".css" then
    "public, max-age=31536000, immutable"
  else if strEndsWith p ".html" then
    "public, max-age=0, must-revalidate"
  else
    "public, max-age=31536000"

/-- A response of the static file server. -/
inductive ServerResponse where
  | asset (path cacheControl : String) : ServerResponse
  | apiNotFound (errorBody : String) : ServerResponse
  | spaIndex : ServerResponse
deriving DecidableEq, Repr

/-- Embeds the server's middleware chain: `express.static` serves an
existing file under `dist` with its cache policy; otherwise the catch-all
answers `/api`-prefixed paths with a 404 JSON error and every other path
with `dist/index.html`. `files` is the set of asset paths present under
the build output directory. -/
def serveRequest (files : List String) (p : String) : ServerResponse :=
  if files.contains p then
    .asset p (cacheControlFor p)
  else if strStartsWith p "/api" then
    .apiNotFound "API route not found"
  else
    .spaIndex

/-! ### Helper lemmas -/

/-- Looking a key up after `setVote` on that key yields the new candidate. -/
theorem lookupVote_setVote (votes : Votes) (p c : String) :
    lookupVote (setVote votes p c) p = some c := by
  induction votes with
  | nil => simp [setVote, lookupVote]
  | cons kv t ih =>
      obtain ⟨k, v⟩ := kv
      by_cases hk : k = p
      · simp [setVote, lookupVote, hk]
      · simp [setVote, lookupVote, hk, ih]

/-- Erasing the key just added by `setVote` restores a map that did not
contain the key. -/
theorem eraseVote_setVote (votes : Votes) (p c : String)
    (h : lookupVote votes p = none) :
    eraseVote (setVote votes p c) p = votes := by
  induction votes with
  | nil => simp [setVote, eraseVote]
  | cons kv t ih =>
      obtain ⟨k, v⟩ := kv
      by_cases hk : k = p
      · simp [lookupVote, hk] at h
      · simp [lookupVote, hk] at h
        simp [setVote, eraseVote, hk, ih h]

/-- A vote lookup succeeds exactly when the position id is among the
selection map's keys. -/
theorem lookupVote_isSome_eq_mem (votes : Votes) (p : String) :
    (lookupVote votes p).isSome = decide (p ∈ votes.map Prod.fst) := by
  induction votes with
  | nil => simp [lookupVote]
  | cons kv t ih =>
      obtain ⟨k, v⟩ := kv
      by_cases hk : k = p
      · simp [lookupVote, hk]
      · have hk' : ¬p = k := fun h => hk h.symm
        simp [lookupVote, hk, hk', ih]

/-- Counting the elements of a duplicate-free list that belong to a
duplicate-free sublist of it recovers that sublist's length. -/
theorem length_filter_mem (ids : List String) :
    ∀ keys : List String, ids.Nodup → keys.Nodup → (∀ k ∈ keys, k ∈ ids) →
      (ids.filter (fun i => decide (i ∈ keys))).length = keys.length := by
  induction ids with
  | nil =>
      intro keys _ _ hsub
      have : keys = [] :=
        List.eq_nil_iff_forall_not_mem.mpr (fun k hk => by simpa using hsub k hk)
      simp [this]
  | cons a t ih =>
      intro keys hids hkeys hsub
      obtain ⟨hat, hT⟩ := List.nodup_cons.mp hids
      by_cases ha : a ∈ keys
      · have hkeys' : (keys.erase a).Nodup := hkeys.erase a
        have hsub' : ∀ k ∈ keys.erase a, k ∈ t := by
          intro k hk
          obtain ⟨hka, hkk⟩ := (List.Nodup.mem_erase_iff hkeys).mp hk
          rcases List.mem_cons.mp (hsub k hkk) with h | h
          · exact absurd h hka
          · exact h
        have hfc : t.filter (fun i => decide (i ∈ keys)) =
            t.filter (fun i => decide (i ∈ keys.erase a)) := by
          apply List.filter_congr
          intro x hx
          have hxa : x ≠ a := fun h => hat (h ▸ hx)
          simp [List.Nodup.mem_erase_iff hkeys, hxa]
        have hlen := ih (keys.erase a) hT hkeys' hsub'
        have herase : (keys.erase a).length = keys.length - 1 :=
          List.length_erase_of_mem ha
        have hpos : 0 < keys.length := List.length_pos.mpr (fun h => by
          subst h; simp at ha)
        rw [List.filter_cons, if_pos (show decide (a ∈ keys) = true by simp [ha]),
          List.length_cons, hfc, hlen, herase]
        omega
      · have hsub' : ∀ k ∈ keys, k ∈ t := by
          intro k hk
          rcases List.mem_cons.mp (hsub k hk) with h | h
          · exact absurd (h ▸ hk) ha
          · exact h
        rw [List.filter_cons, if_neg (show ¬decide (a ∈ keys) = true by simp [ha])]
        exact ih keys hT hkeys hsub'

/-- The submit counter `Object.keys(votes).length` agrees with the number
of ballot positions that carry a selection, as long as the selection map's
keys are duplicate-free ballot position ids. -/
theorem votedCount_eq_selectedPositionCount (ballot : List Position) (votes : Votes)
    (hkeys : (votes.map Prod.fst).Nodup)
    (hsub : ∀ k ∈ votes.map Prod.fst, k ∈ ballot.map Position.id)
    (hids : (ballot.map Position.id).Nodup) :
    votedCount votes = selectedPositionCount ballot votes := by
  have hstep : ballot.filter (fun p => (lookupVote votes p.id).isSome) =
      ballot.filter (fun p => decide (p.id ∈ votes.map Prod.fst)) := by
    apply List.filter_congr
    intro p _
    exact lookupVote_isSome_eq_mem votes p.id
  have hmap : ((ballot.map Position.id).filter
      (fun i => decide (i ∈ votes.map Prod.fst))).length =
      (ballot.filter (fun p => decide (p.id ∈ votes.map Prod.fst))).length := by
    rw [List.filter_map, List.length_map]
    exact congrArg List.length (List.filter_congr (fun p _ => rfl))
  have hcount := length_filter_mem (ballot.map Position.id)
    (votes.map Prod.fst) hids hkeys hsub
  unfold votedCount selectedPositionCount
  rw [hstep, ← hmap, hcount, List.length_map]

/-! ### Claim theorems -/

/-- C1: evaluation of the response interceptor at the failing input. A 401
response whose error message indicates token expiry clears the session and
schedules the redirect to `/login`, as claimed; but a 401 response whose
error message indicates account deactivation also has its `user` key
removed, contradicting the claim (and the source's own comment) that the
stored user record is left in place for the deactivation UI. -/
theorem interceptor_deactivated_removes_user :
    responseInterceptor 401 "Token expired" =
      { tokenRemoved := true, userRemoved := true
        redirectTo := some "/login"
        rejectionMessage := some "Your session has expired. Please log in again." }
    ∧ responseInterceptor 401 "Account deactivated" =
      { tokenRemoved := true, userRemoved := true
        redirectTo := none, rejectionMessage := none }
    ∧ (responseInterceptor 401 "Account deactivated").userRemoved = true := by
  refine ⟨by decide, by decide, by decide⟩

/-- C4: starting from a selection map with no choice for a position,
toggling the same candidate twice for that position leaves the position
with no selection. -/
theorem toggle_twice_clears_selection (votes : Votes) (p c : String)
    (h : lookupVote votes p = none) :
    lookupVote (handleVoteChange (handleVoteChange votes p c) p c) p = none := by
  have h1 : handleVoteChange votes p c = setVote votes p c := by
    unfold handleVoteChange
    rw [h]
    simp
  have h2 : handleVoteChange (setVote votes p c) p c = eraseVote (setVote votes p c) p := by
    unfold handleVoteChange
    rw [lookupVote_setVote]
    simp
  rw [h1, h2, eraseVote_setVote votes p c h, h]

/-- C4 witness: toggling candidate c1 twice for position p1 on the empty
selection map leaves p1 unselected. -/
theorem toggle_twice_clears_selection_witness :
    lookupVote ([] : Votes) "p1" = none ∧
    lookupVote (handleVoteChange (handleVoteChange [] "p1" "c1") "p1" "c1") "p1" = none :=
  ⟨by decide, toggle_twice_clears_selection [] "p1" "c1" (by decide)⟩

/-- C10: a stored session whose user status is INACTIVE and whose role is
not OFFICER is cleared from storage and redirected to `/login` by the
route guard, for any required role. -/
theorem inactive_non_officer_cleared_to_login (requiredRole : Option String)
    (t : String) (u : StoredUser) (hst : u.status = "INACTIVE")
    (hro : u.role ≠ "OFFICER") :
    protectedRoute requiredRole (some t) (some (.parsed u)) =
      { decision := .navigate "/login", clearedStorage := true } := by
  simp [protectedRoute, hst, hro]

/-- C10 witness: an INACTIVE ADMIN visiting an admin-only page is cleared
and redirected to `/login`. -/
theorem inactive_non_officer_cleared_to_login_witness :
    (⟨"ADMIN", "INACTIVE"⟩ : StoredUser).status = "INACTIVE" ∧
    (⟨"ADMIN", "INACTIVE"⟩ : StoredUser).role ≠ "OFFICER" ∧
    protectedRoute (some "ADMIN") (some "tok") (some (.parsed ⟨"ADMIN", "INACTIVE"⟩)) =
      { decision := .navigate "/login", clearedStorage := true } :=
  ⟨by decide, by decide,
    inactive_non_officer_cleared_to_login (some "ADMIN") "tok"
      ⟨"ADMIN", "INACTIVE"⟩ (by decide) (by decide)⟩

/-- C5 counterexample: a stored session for an INACTIVE ADMIN visiting a
CANDIDATE-only page is cleared and redirected to `/login`, not to the
ADMIN role's own dashboard, refuting the claim's unconditional
role-mismatch rule. -/
theorem inactive_admin_not_sent_to_own_dashboard :
    protectedRoute (some "CANDIDATE") (some "tok")
        (some (.parsed ⟨"ADMIN", "INACTIVE"⟩)) =
      { decision := .navigate "/login", clearedStorage := true }
    ∧ protectedRoute (some "CANDIDATE") (some "tok")
        (some (.parsed ⟨"ADMIN", "INACTIVE"⟩)) ≠
      { decision := .navigate (roleDashboard "ADMIN"), clearedStorage := false } := by
  refine ⟨by decide, by decide⟩

/-- C5 (amended): visiting with a missing token or missing user record
redirects to `/login`; malformed stored user data clears storage and
redirects to `/login`; and for a session whose status is not INACTIVE,
a role mismatch redirects to the stored role's own dashboard. -/
theorem protected_route_redirect_rules (requiredRole : Option String)
    (u : StoredUser) (r t : String)
    (hrole : u.role = "ADMIN" ∨ u.role = "OFFICER" ∨ u.role = "CANDIDATE")
    (hact : u.status ≠ "INACTIVE") (hmis : u.role ≠ r) :
    (∀ stored, protectedRoute requiredRole none stored =
      { decision := .navigate "/login", clearedStorage := false })
    ∧ protectedRoute requiredRole (some t) none =
      { decision := .navigate "/login", clearedStorage := false }
    ∧ protectedRoute requiredRole (some t) (some .malformed) =
      { decision := .navigate "/login", clearedStorage := true }
    ∧ protectedRoute (some r) (some t) (some (.parsed u)) =
      { decision := .navigate (roleDashboard u.role), clearedStorage := false } := by
  refine ⟨fun stored => by simp [protectedRoute], by simp [protectedRoute],
    by simp [protectedRoute], ?_⟩
  rcases hrole with h | h | h <;>
    simp [protectedRoute, roleDashboard, hact, h ▸ hmis, h]

/-- C5 witness: an ACTIVE ADMIN visiting a CANDIDATE-only page is sent to
`/admin/dashboard`; missing and malformed sessions go to `/login`. -/
theorem protected_route_redirect_rules_witness :
    protectedRoute none none (some (.parsed ⟨"ADMIN", "ACTIVE"⟩)) =
      { decision := .navigate "/login", clearedStorage := false }
    ∧ protectedRoute none (some "tok") (some .malformed) =
      { decision := .navigate "/login", clearedStorage := true }
    ∧ protectedRoute (some "CANDIDATE") (some "tok")
        (some (.parsed ⟨"ADMIN", "ACTIVE"⟩)) =
      { decision := .navigate (roleDashboard "ADMIN"), clearedStorage := false } := by
  have h := protected_route_redirect_rules none ⟨"ADMIN", "ACTIVE"⟩
    "CANDIDATE" "tok" (by decide) (by decide) (by decide)
  exact ⟨h.1 (some (.parsed ⟨"ADMIN", "ACTIVE"⟩)), h.2.2.1, h.2.2.2⟩

/-- C3 counterexample: with a two-position ballot, the empty selection map
and the wizard on position 0 (so the Next Position button is disabled),
clicking the progress step button for index 1 still moves the current
position index to the later position 1. -/
theorem step_button_allows_unselected_jump :
    nextButtonDisabled
      [⟨"p0", "President", 1, "", ""⟩, ⟨"p1", "Secretary", 1, "", ""⟩]
      ⟨0, []⟩ = true
    ∧ lookupVote ([] : Votes) "p0" = none
    ∧ (clickStepButton ⟨0, []⟩ 1).currentStep = 1
    ∧ (0 : Nat) < 1 := by
  refine ⟨by decide, by decide, by decide, by decide⟩

/-- C3 (amended): navigation through the Next Position button changes the
current position index only when the currently displayed position has a
recorded selection; the progress step buttons are not so guarded. -/
theorem next_button_requires_selection (ballot : List Position) (s : WizardState)
    (h : (clickNextButton ballot s).currentStep ≠ s.currentStep) :
    ∃ pid, currentPositionId ballot s = some pid ∧
      (lookupVote s.votes pid).isSome = true := by
  by_cases hd : nextButtonDisabled ballot s = true
  · exact absurd (by simp [clickNextButton, hd]) h
  · have hd' : nextButtonDisabled ballot s = false := by
      cases hb : nextButtonDisabled ballot s
      · rfl
      · exact absurd hb hd
    unfold nextButtonDisabled at hd'
    cases hcp : currentPositionId ballot s with
    | none => rw [hcp] at hd'; simp at hd'
    | some pid =>
        rw [hcp] at hd'
        have hd2 : (lookupVote s.votes pid).isNone = false := hd'
        refine ⟨pid, rfl, ?_⟩
        cases hv : lookupVote s.votes pid with
        | none => rw [hv] at hd2; simp at hd2
        | some c => simp

/-- C3 witness: with position p0 selected, the Next Position button moves
from step 0 to step 1, and indeed p0's selection is recorded. -/
theorem next_button_requires_selection_witness :
    (clickNextButton
        [⟨"p0", "President", 1, "", ""⟩, ⟨"p1", "Secretary", 1, "", ""⟩]
        ⟨0, [("p0", "c1")]⟩).currentStep ≠
      (⟨0, [("p0", "c1")]⟩ : WizardState).currentStep
    ∧ ∃ pid, currentPositionId
        [⟨"p0", "President", 1, "", ""⟩, ⟨"p1", "Secretary", 1, "", ""⟩]
        ⟨0, [("p0", "c1")]⟩ = some pid ∧
        (lookupVote [("p0", "c1")] pid).isSome = true :=
  ⟨by decide,
    next_button_requires_selection
      [⟨"p0", "President", 1, "", ""⟩, ⟨"p1", "Secretary", 1, "", ""⟩]
      ⟨0, [("p0", "c1")]⟩ (by decide)⟩

/-- C2: with the wizard not mid-submission, the Submit Vote button is
enabled exactly when the number of ballot positions carrying a selection
equals the total number of positions (the selection map's keys being
duplicate-free ballot position ids, as the wizard maintains); with a full
selection, submission without the confirmation dialog is cancelled and
leaves the ballot token in place, while a confirmed successful cast
removes the stored ballot token. -/
theorem submit_enabled_iff_all_positions_selected
    (ballot : List Position) (votes : Votes)
    (hkeys : (votes.map Prod.fst).Nodup)
    (hsub : ∀ k ∈ votes.map Prod.fst, k ∈ ballot.map Position.id)
    (hids : (ballot.map Position.id).Nodup) :
    (submitButtonEnabled false ballot votes = true ↔
      selectedPositionCount ballot votes = ballot.length)
    ∧ (∀ cast, selectedPositionCount ballot votes = ballot.length →
        (handleSubmit ballot votes false cast).cancelled = true ∧
        (handleSubmit ballot votes false cast).tokenRemoved = false)
    ∧ (selectedPositionCount ballot votes = ballot.length →
        (handleSubmit ballot votes true .ok).tokenRemoved = true ∧
        (handleSubmit ballot votes true .ok).navigatedTo = some "/verify") := by
  have hcount := votedCount_eq_selectedPositionCount ballot votes hkeys hsub hids
  have hmissing : ∀ hfull : selectedPositionCount ballot votes = ballot.length,
      ballot.filter (fun p => (lookupVote votes p.id).isNone) = [] := by
    intro hfull
    have hsel : ballot.filter (fun p => (lookupVote votes p.id).isSome) = ballot :=
      (List.filter_sublist ballot).eq_of_length hfull
    have hall : ∀ p ∈ ballot, (lookupVote votes p.id).isSome = true := by
      intro p hp
      have := List.filter_eq_self.mp hsel p hp
      simpa using this
    apply List.filter_eq_nil_iff.mpr
    intro p hp
    have := hall p hp
    simp [Option.isNone_iff_eq_none]
    cases hv : lookupVote votes p.id with
    | none => rw [hv] at this; simp at this
    | some c => simp
  refine ⟨?_, ?_, ?_⟩
  · constructor
    · intro he
      unfold submitButtonEnabled at he
      simp at he
      rw [← hcount]
      exact he
    · intro hc
      unfold submitButtonEnabled
      simp
      rw [hcount]
      exact hc
  · intro cast hfull
    unfold handleSubmit
    rw [hmissing hfull]
    simp
  · intro hfull
    unfold handleSubmit
    rw [hmissing hfull]
    simp

/-- C2 witness: on a one-position ballot with that position selected, the
Submit button is enabled; without confirmation the submission is
cancelled; with confirmation and a successful cast the stored ballot
token is removed. -/
theorem submit_enabled_iff_all_positions_selected_witness :
    submitButtonEnabled false [⟨"p1", "President", 1, "", ""⟩] [("p1", "c1")] = true
    ∧ (handleSubmit [⟨"p1", "President", 1, "", ""⟩] [("p1", "c1")]
        false .ok).cancelled = true
    ∧ (handleSubmit [⟨"p1", "President", 1, "", ""⟩] [("p1", "c1")]
        true .ok).tokenRemoved = true := by
  have h := submit_enabled_iff_all_positions_selected
    [⟨"p1", "President", 1, "", ""⟩] [("p1", "c1")]
    (by decide) (by decide) (by decide)
  exact ⟨h.1.mpr (by decide), (h.2.1 .ok (by decide)).1, (h.2.2 (by decide)).1⟩

/-- C6: a unified-login submission with a registration number and no
email/password pair whose OTP request succeeds navigates to `/login/otp`
carrying the trimmed, uppercased registration number. -/
theorem regno_only_login_requests_otp (email password regNo : String)
    (hep : hasEmailPassword email password = false)
    (hrn : hasRegNo regNo = true) :
    onUnifiedLogin email password regNo .ok =
      .otpSent (normalizeRegNo regNo) "/login/otp" (normalizeRegNo regNo) := by
  unfold onUnifiedLogin
  rw [hep, hrn]
  simp

/-- C6 witness: submitting only the registration number " ab12c " requests
an OTP and navigates to `/login/otp` carrying "AB12C". -/
theorem regno_only_login_requests_otp_witness :
    hasEmailPassword "" "" = false ∧ hasRegNo " ab12c " = true ∧
    onUnifiedLogin "" "" " ab12c " .ok = .otpSent "AB12C" "/login/otp" "AB12C" := by
  refine ⟨by decide, by decide, ?_⟩
  have h := regno_only_login_requests_otp "" "" " ab12c " (by decide) (by decide)
  have hn : normalizeRegNo " ab12c " = "AB12C" := by decide
  rw [hn] at h
  exact h

/-- C7: a stored welcome record is displayed exactly when it is less than
30000 ms old at read time; a record 30000 ms or older is deleted without
display; a displayed record's auto-dismiss timer fires 10000 ms after
display, and the dismiss callback hides the banner and removes the
record from storage. -/
theorem welcome_banner_window (w : WelcomeRecord) (now : Int) :
    ((welcomeEffect (some (some w)) now).displayed = some w.message ↔
      now - w.timestamp < 30000)
    ∧ (30000 ≤ now - w.timestamp →
        welcomeEffect (some (some w)) now =
          { displayed := none, removedNow := true, dismissAt := none })
    ∧ (now - w.timestamp < 30000 →
        (welcomeEffect (some (some w)) now).dismissAt = some (now + 10000))
    ∧ welcomeDismiss = (none, true) := by
  by_cases h : now - w.timestamp < 30000
  · refine ⟨by simp [welcomeEffect, h], fun hle => absurd h (by omega),
      fun _ => by simp [welcomeEffect, h], rfl⟩
  · refine ⟨by simp [welcomeEffect, h], fun _ => by simp [welcomeEffect, h],
      fun hlt => absurd hlt h, rfl⟩

/-- C7 witness: a record written at time 0 read at 5000 ms is displayed
with a dismiss timer at 15000 ms; read at 40000 ms it is deleted without
display. -/
theorem welcome_banner_window_witness :
    (welcomeEffect (some (some ⟨"Welcome back!", 0⟩)) 5000).displayed =
      some "Welcome back!"
    ∧ (welcomeEffect (some (some ⟨"Welcome back!", 0⟩)) 5000).dismissAt =
      some 15000
    ∧ welcomeEffect (some (some ⟨"Welcome back!", 0⟩)) 40000 =
      { displayed := none, removedNow := true, dismissAt := none } := by
  refine ⟨(welcome_banner_window ⟨"Welcome back!", 0⟩ 5000).1.mpr (by decide),
    ?_, (welcome_banner_window ⟨"Welcome back!", 0⟩ 40000).2.1 (by decide)⟩
  have h := (welcome_banner_window ⟨"Welcome back!", 0⟩ 5000).2.2.1 (by decide)
  simpa using h

/-- C8: both 429 handlers (the unified login's voter branch and the OTP
page's resend action) display the server-provided `error` and `hint`
fields concatenated with ". " between them, substituting "Too many
requests" for a missing error field and a retry-after hint built from the
`retryAfter` field (default 60) for a missing hint field. -/
theorem rate_limit_message_concat (e h regNo : String) (r : Nat)
    (he : e ≠ "") (hh : h ≠ "") (hr : r ≠ 0)
    (hreg : hasRegNo regNo = true) :
    onUnifiedLogin "" "" regNo (.rateLimited (some e) (some h) none) =
      .formError (e ++ ". " ++ h)
    ∧ handleResendOTP regNo (.rateLimited (some e) (some h) none) =
      (e ++ ". " ++ h, false)
    ∧ display429 (some e) (some h) (some r) = e ++ ". " ++ h
    ∧ display429 (some e) none (some r) =
      e ++ ". " ++ ("Please wait " ++ toString r ++ " seconds before trying again")
    ∧ display429 none none none =
      "Too many requests. Please wait 60 seconds before trying again" := by
  have hne : regNo ≠ "" := by
    intro h0
    rw [h0] at hreg
    simp [hasRegNo] at hreg
  refine ⟨?_, ?_, ?_, ?_, by decide⟩
  · unfold onUnifiedLogin
    rw [show hasEmailPassword "" "" = false by decide, hreg]
    simp [display429, jsOr, he, hh]
  · unfold handleResendOTP
    simp [hne, display429, jsOr, he, hh]
  · simp [display429, jsOr, he, hh]
  · simp [display429, jsOr, jsOrNat, he, hr]

/-- C8 witness: a 429 with error "Too many OTP requests" and hint "Try
again in 60 seconds" displays their concatenation at both call sites. -/
theorem rate_limit_message_concat_witness :
    onUnifiedLogin "" "" "R1"
        (.rateLimited (some "Too many OTP requests")
          (some "Try again in 60 seconds") none) =
      .formError "Too many OTP requests. Try again in 60 seconds"
    ∧ handleResendOTP "R1"
        (.rateLimited (some "Too many OTP requests")
          (some "Try again in 60 seconds") none) =
      ("Too many OTP requests. Try again in 60 seconds", false) := by
  have h := rate_limit_message_concat "Too many OTP requests"
    "Try again in 60 seconds" "R1" 30 (by decide) (by decide) (by decide) (by decide)
  exact ⟨h.1, h.2.1⟩

/-- C9: a request for an `/api`-prefixed path that matches no static asset
receives the 404 JSON error; any other path matching no static asset is
answered with the SPA entry document; a served asset carries the
must-revalidate policy when it is an HTML file and the one-year immutable
policy when it is a JS or CSS file. -/
theorem static_server_routing_and_cache (files : List String) (p : String) :
    (files.contains p = false → strStartsWith p "/api" = true →
      serveRequest files p = .apiNotFound "API route not found")
    ∧ (files.contains p = false → strStartsWith p "/api" = false →
      serveRequest files p = .spaIndex)
    ∧ (files.contains p = true →
      serveRequest files p = .asset p (cacheControlFor p))
    ∧ (strEndsWith p ".html" = true → strEndsWith p ".js" = false →
        strEndsWith p ".css" = false →
      cacheControlFor p = "public, max-age=0, must-revalidate")
    ∧ (strEndsWith p ".js" = true ∨ strEndsWith p ".css" = true →
      cacheControlFor p = "public, max-age=31536000, immutable") := by
  refine ⟨fun hf ha => by unfold serveRequest; rw [hf, ha]; simp,
    fun hf ha => by unfold serveRequest; rw [hf, ha]; simp,
    fun hf => by unfold serveRequest; rw [hf]; simp,
    fun hh hj hc => by unfold cacheControlFor; rw [hh, hj, hc]; simp,
    fun h => by
      rcases h with h | h <;> unfold cacheControlFor <;> rw [h] <;> simp⟩

/-- C9 witness: with a single bundled asset, an API path gets the 404 JSON
error, a client route gets the SPA entry document, the asset is served
with the immutable policy, and an HTML path carries must-revalidate. -/
theorem static_server_routing_and_cache_witness :
    serveRequest ["/assets/app.js"] "/api/positions" =
      .apiNotFound "API route not found"
    ∧ serveRequest ["/assets/app.js"] "/vote" = .spaIndex
    ∧ serveRequest ["/assets/app.js"] "/assets/app.js" =
      .asset "/assets/app.js" "public, max-age=31536000, immutable"
    ∧ cacheControlFor "/index.html" = "public, max-age=0, must-revalidate" := by
  refine ⟨(static_server_routing_and_cache ["/assets/app.js"] "/api/positions").1
      (by decide) (by decide),
    (static_server_routing_and_cache ["/assets/app.js"] "/vote").2.1
      (by decide) (by decide), ?_,
    (static_server_routing_and_cache ["/assets/app.js"] "/index.html").2.2.2.1
      (by decide) (by decide) (by decide)⟩
  have h := (static_server_routing_and_cache ["/assets/app.js"]
    "/assets/app.js").2.2.1 (by decide)
  have hc : cacheControlFor "/assets/app.js" =
      "public, max-age=31536000, immutable" := by decide
  rw [hc] at h
  exact h

end BallotBuddy
